import Mathlib

/-!
Shallow embedding of `pgbouncer-userlist-generator` (Go).

The repository has two source files, both `package main`:
* `src/unnamed/part_000` — the full tool: fetch credentials from Postgres,
  render `userlist.txt`, compare md5 fingerprints, back up, atomically
  rename, write a reload-trigger file, and (in `main`) run the reload
  command when the trigger file exists;
* `src/cmd/main.go` — the same pipeline without the reload-trigger logic.

Pure parts (the renderer and the SQL query's row logic) are embedded as
Lean functions on lists.  The effectful run (`generateUserList` and `main`)
is embedded as a deterministic state transformer over an explicit
filesystem state, with an outcome record deciding which syscalls succeed,
mirroring the Go control flow (including the `defer os.Remove(tmp)`
cleanup) branch by branch.  md5 digests are modelled as an injective
digest of the content (the spec itself declares two artifacts equal iff
their fingerprints are equal, collisions being out of scope).
-/

namespace PgbUserlist

/-- One row scanned from the credential query: `(rolname, rolpassword)`. -/
abbrev Row := String × String

/-- `fmt.Sprintf("\x22%s\x22 \x22%s\x22", username, password)`:
one rendered line, the fields inserted verbatim with no escaping. -/
def renderLine (username password : String) : String :=
  "\"" ++ username ++ "\" \"" ++ password ++ "\""

/-- Lexicographic order on character lists: the order `sort.Strings`
sorts by.  Go compares strings byte-lexicographically; on UTF-8 encoded
strings byte order agrees with code-point order, which is this order. -/
def lexLe : List Char → List Char → Bool
  | [], _ => true
  | _ :: _, [] => false
  | a :: as, b :: bs => if a = b then lexLe as bs else decide (a < b)

/-- Lexicographic order on strings, as a boolean comparator. -/
def strLeb (a b : String) : Bool := lexLe a.data b.data

/-- Lexicographic order on strings, as a relation (for `Sorted`). -/
def strLeProp (a b : String) : Prop := strLeb a b = true

instance : DecidableRel strLeProp := fun a b => Bool.decEq (strLeb a b) true

/-- The sorted line list: `sort.Strings(lines)` on
`lines = rows.map renderLine`.  Any correct sort of the same multiset of
strings yields the same list (equal strings are identical), so
`insertionSort` embeds Go's `sort.Strings`. -/
def sortedLines (rows : List Row) : List String :=
  List.insertionSort strLeProp (rows.map fun r => renderLine r.1 r.2)

/-- The rendered artifact:
`strings.Join(lines, "\n") + "\n"` after sorting. -/
def render (rows : List Row) : String :=
  String.intercalate "\n" (sortedLines rows) ++ "\n"

/-- A role row of `pg_authid` / `pg_catalog.pg_roles`:
oid, name, and password (`NULL` modelled as `none`). -/
structure Role where
  oid : Nat
  rolname : String
  rolpassword : Option String
deriving DecidableEq, Repr

/-- A row of `pg_catalog.pg_auth_members`: role `member` belongs to
group `roleid`. -/
structure Membership where
  roleid : Nat
  member : Nat
deriving DecidableEq, Repr

/-- `left join pg_catalog.pg_roles r on m.roleid = r.oid`:
the group name for a membership row, `none` when no role has that oid. -/
def lookupRolname (roles : List Role) (oid : Nat) : Option String :=
  (roles.find? fun r => r.oid == oid).map Role.rolname

/-- The double left join
`pg_authid id left join pg_auth_members m on id.oid = m.member
 left join pg_roles r on m.roleid = r.oid`:
each principal paired with the name of each group it belongs to, or with
`none` when it belongs to no group. -/
def joinedRows (roles : List Role) (members : List Membership) :
    List (Role × Option String) :=
  roles.flatMap fun id =>
    match members.filter fun m => m.member == id.oid with
    | [] => [(id, none)]
    | ms => ms.map fun m => (id, lookupRolname roles m.roleid)

/-- The credential query of `generateUserList`:
`select distinct id.rolname, id.rolpassword … where
(r.rolname is null or not(r.rolname = any($1))) and id.rolpassword is not null`.
Note the `where` clause tests only the *group* name `r.rolname` against
the exclusion list, never the principal's own name `id.rolname`. -/
def queryUserList (roles : List Role) (members : List Membership)
    (exclude : List String) : List Row :=
  (((joinedRows roles members).filter fun rg =>
      (match rg.2 with
       | none => true
       | some g => !(exclude.contains g)) && rg.1.rolpassword.isSome).map
    fun rg => (rg.1.rolname, rg.1.rolpassword.getD "")).dedup

/-- md5 digests, modelled as an injective digest of the file content:
the code only ever compares two digests for equality, and the spec's data
model declares two artifacts equal iff their fingerprints are equal. -/
def md5Model (content : String) : String := content

/-- The errors a run can return, one per fallible call site of
`generateUserList` in source order. -/
inductive GoErr
  | txErr
  | queryErr
  | scanErr
  | writeTmpErr
  | fingerprintTmpErr
  | fingerprintLiveErr
  | backupErr
  | triggerErr
  | renameErr
deriving DecidableEq, Repr

/-- Observable side-effect events of a run, recorded in execution order. -/
inductive Event
  | writeTmp
  | fingerprintTmp
  | fingerprintLive
  | backup
  | markReload
  | publish
deriving DecidableEq, Repr

/-- Which fallible operations succeed during one run (the environment's
answer to each syscall / database call, in source order). -/
structure FsOutcomes where
  txOk : Bool
  queryOk : Bool
  scanOk : Bool
  writeTmpOk : Bool
  md5TmpOk : Bool
  md5LiveOk : Bool
  backupOk : Bool
  triggerOk : Bool
  renameOk : Bool
deriving DecidableEq, Repr

/-- The filesystem state the program touches: the content at the live
path (`none` = absent), the content at the temporary path, the backup
files `(path, content)` created so far, and whether the reload-trigger
file exists. -/
structure FsState where
  live : Option String
  tmp : Option String
  backups : List (String × String)
  marker : Bool
deriving DecidableEq, Repr

/-- `defer os.Remove(tmpConfigPath)`: registered right after the
temporary file is written, it removes the temporary file on every
subsequent exit path (after a successful rename the file is already
gone and the ignored error makes the call a no-op). -/
def cleanupTmp (s : FsState) : FsState := { s with tmp := none }

deriving instance DecidableEq for Except

/-- Result of one `generateUserList` run: the returned value, the final
filesystem state, and the ordered event trace. -/
structure RunResult where
  res : Except GoErr Unit
  fs : FsState
  events : List Event
deriving DecidableEq, Repr

/-- The tail of `generateUserList` in `src/unnamed/part_000` (lines
106–109), reached on the changed path and on the first-run path:
`writeTriggerFile()` — which creates the trigger file — and then
`return os.Rename(tmpConfigPath, path)`. -/
def finishPublish (o : FsOutcomes) (content : String) (s : FsState)
    (evs : List Event) : RunResult :=
  if o.triggerOk then
    if o.renameOk then
      ⟨.ok (), ⟨some content, none, s.backups, true⟩,
        evs ++ [.markReload, .publish]⟩
    else
      ⟨.error .renameErr, ⟨s.live, none, s.backups, true⟩,
        evs ++ [.markReload]⟩
  else
    ⟨.error .triggerErr, cleanupTmp s, evs⟩

/-- `generateUserList` of `src/unnamed/part_000`, as a deterministic
state transformer: begin a read-only transaction, query and scan the
rows, sort and write the rendered content to `path + ".tmp"`, register
the deferred removal of the temporary file, and if the live file exists
compare the md5 fingerprints — returning successfully with no further
effect when they are equal, otherwise copying the live file to
`path + ".backup-" + now` — then write the trigger file and rename the
temporary file onto the live path.  `rows` stands for the scanned query
result and `now` for `time.Now().UTC().Unix()`. -/
def generateUserList (o : FsOutcomes) (rows : List Row) (path : String)
    (now : Nat) (s : FsState) : RunResult :=
  if !o.txOk then ⟨.error .txErr, s, []⟩
  else if !o.queryOk then ⟨.error .queryErr, s, []⟩
  else if !o.scanOk then ⟨.error .scanErr, s, []⟩
  else if !o.writeTmpOk then ⟨.error .writeTmpErr, s, []⟩
  else
    match s.live with
    | some liveContent =>
      if !o.md5TmpOk then
        ⟨.error .fingerprintTmpErr, ⟨s.live, none, s.backups, s.marker⟩,
          [.writeTmp, .fingerprintTmp]⟩
      else if !o.md5LiveOk then
        ⟨.error .fingerprintLiveErr, ⟨s.live, none, s.backups, s.marker⟩,
          [.writeTmp, .fingerprintTmp, .fingerprintLive]⟩
      else if md5Model (render rows) = md5Model liveContent then
        ⟨.ok (), ⟨s.live, none, s.backups, s.marker⟩,
          [.writeTmp, .fingerprintTmp, .fingerprintLive]⟩
      else if !o.backupOk then
        ⟨.error .backupErr, ⟨s.live, none, s.backups, s.marker⟩,
          [.writeTmp, .fingerprintTmp, .fingerprintLive]⟩
      else
        finishPublish o (render rows)
          ⟨s.live, some (render rows),
            (path ++ ".backup-" ++ toString now, liveContent) :: s.backups,
            s.marker⟩
          [.writeTmp, .fingerprintTmp, .fingerprintLive, .backup]
    | none =>
      finishPublish o (render rows) ⟨s.live, some (render rows), s.backups, s.marker⟩
        [.writeTmp]

/-- Result of one whole process run (`main` of `src/unnamed/part_000`):
the value `generateUserList` returned, the final filesystem state,
whether the reload command was invoked, and whether the process exited
fatally (`log.Fatalf`). -/
structure MainResult where
  genResult : Except GoErr Unit
  fs : FsState
  reloadInvoked : Bool
  fatal : Bool
deriving DecidableEq, Repr

/-- `main` of `src/unnamed/part_000` after flag parsing and `sql.Open`:
run `generateUserList` (fatal on error); then, if the trigger file
exists (`checkTriggerFileExists`), run the reload command
(`runReloadCommand`, fatal on failure).  Nothing on this path ever
removes the trigger file. -/
def mainRun (o : FsOutcomes) (reloadOk : Bool) (rows : List Row)
    (path : String) (now : Nat) (s : FsState) : MainResult :=
  let r := generateUserList o rows path now s
  match r.res with
  | .error e => ⟨.error e, r.fs, false, true⟩
  | .ok () =>
    if r.fs.marker then ⟨.ok (), r.fs, true, !reloadOk⟩
    else ⟨.ok (), r.fs, false, false⟩

/-- The outcome record in which every operation succeeds. -/
def allOk : FsOutcomes := ⟨true, true, true, true, true, true, true, true, true⟩

/-- An initially empty filesystem: no live file, no temporary file,
no backups, no trigger file. -/
def emptyFs : FsState := ⟨none, none, [], false⟩

/-- All operations succeed except the final `os.Rename`. -/
def oRenameFail : FsOutcomes := { allOk with renameOk := false }

/-- All operations succeed except hashing the temporary file. -/
def oMd5Fail : FsOutcomes := { allOk with md5TmpOk := false }

/-- All operations succeed except the backup copy. -/
def oBackupFail : FsOutcomes := { allOk with backupOk := false }

/-- Both fingerprinting calls would fail — irrelevant on the first-run
path, which never fingerprints. -/
def oNoMd5 : FsOutcomes := { allOk with md5TmpOk := false, md5LiveOk := false }

/-- The spec's §8 example input rows. -/
def rowsAB : List Row := [("alice", "pw1"), ("bob", "pw2")]

/-- A filesystem whose live artifact holds stale content. -/
def fsLiveOld : FsState := ⟨some "old\n", none, [], false⟩

/-- The filesystem state after a successful first run on `rowsAB`. -/
def r1fs : FsState := (generateUserList allOk rowsAB "p" 1 emptyFs).fs

/-- A filesystem whose live artifact is already up to date for `rowsAB`
and on which the reload marker exists. -/
def fsMarked : FsState := ⟨some (render rowsAB), none, [], true⟩

/-- Roles for the exclusion scenario of the spec's §8: `A` belongs to no
group, `B` belongs to group `G`, `C` belongs to no group but is itself
named in the exclusion list, `G` is a group (no password). -/
def rolesC2 : List Role :=
  [⟨1, "A", some "pwA"⟩, ⟨2, "B", some "pwB"⟩, ⟨3, "C", some "pwC"⟩,
   ⟨4, "G", none⟩]

/-- The single membership row of the scenario: `B` is a member of `G`. -/
def membersC2 : List Membership := [⟨4, 2⟩]

/-! ### Order lemmas for the line comparator -/

theorem lexLe_total : ∀ a b : List Char, lexLe a b = true ∨ lexLe b a = true
  | [], _ => Or.inl rfl
  | _ :: _, [] => Or.inr rfl
  | a :: as, b :: bs => by
    by_cases hab : a = b
    · subst hab
      simpa [lexLe] using lexLe_total as bs
    · rcases lt_trichotomy a b with hlt | heq | hgt
      · exact Or.inl (by simp [lexLe, hab, hlt])
      · exact absurd heq hab
      · exact Or.inr (by simp [lexLe, Ne.symm hab, hgt])

theorem lexLe_trans :
    ∀ a b c : List Char, lexLe a b = true → lexLe b c = true → lexLe a c = true
  | [], _, _, _, _ => rfl
  | _ :: _, [], _, h₁, _ => by simp [lexLe] at h₁
  | _ :: _, _ :: _, [], _, h₂ => by simp [lexLe] at h₂
  | a :: as, b :: bs, c :: cs, h₁, h₂ => by
    by_cases hab : a = b <;> by_cases hbc : b = c
    · subst hab; subst hbc
      simp only [lexLe, if_pos rfl] at h₁ h₂ ⊢
      exact lexLe_trans as bs cs h₁ h₂
    · subst hab
      simp [lexLe, hbc] at h₂ ⊢
      exact h₂
    · subst hbc
      simp [lexLe, hab] at h₁ ⊢
      exact h₁
    · simp [lexLe, hab] at h₁
      simp [lexLe, hbc] at h₂
      have hac : a < c := lt_trans h₁ h₂
      simp [lexLe, ne_of_lt hac, hac]

theorem lexLe_antisymm :
    ∀ a b : List Char, lexLe a b = true → lexLe b a = true → a = b
  | [], [], _, _ => rfl
  | [], _ :: _, _, h₂ => by simp [lexLe] at h₂
  | _ :: _, [], h₁, _ => by simp [lexLe] at h₁
  | a :: as, b :: bs, h₁, h₂ => by
    by_cases hab : a = b
    · subst hab
      simp only [lexLe, if_pos rfl] at h₁ h₂
      rw [lexLe_antisymm as bs h₁ h₂]
    · simp [lexLe, hab] at h₁
      simp [lexLe, Ne.symm hab] at h₂
      exact absurd h₂ (lt_asymm h₁)

theorem strEq_of_dataEq {a b : String} (h : a.data = b.data) : a = b :=
  congrArg String.mk h

instance : IsTotal String strLeProp := ⟨fun a b => lexLe_total a.data b.data⟩

instance : IsTrans String strLeProp :=
  ⟨fun a b c => lexLe_trans a.data b.data c.data⟩

instance : IsAntisymm String strLeProp :=
  ⟨fun a b h₁ h₂ => strEq_of_dataEq (lexLe_antisymm a.data b.data h₁ h₂)⟩

/-- Sorting the rendered lines is a function of the multiset of rows:
permuting the input leaves the sorted line list unchanged. -/
theorem sortedLines_eq_of_perm {l₁ l₂ : List Row} (h : l₁.Perm l₂) :
    sortedLines l₁ = sortedLines l₂ :=
  List.eq_of_perm_of_sorted
    ((List.perm_insertionSort _ _).trans
      ((h.map _).trans (List.perm_insertionSort _ _).symm))
    (List.sorted_insertionSort _ _)
    (List.sorted_insertionSort _ _)

/-- No branch of a run ever resets the trigger-marker flag: if the
marker file exists before `generateUserList`, it still exists after. -/
theorem marker_mono (o : FsOutcomes) (rows : List Row) (path : String)
    (now : Nat) (s : FsState) (hm : s.marker = true) :
    (generateUserList o rows path now s).fs.marker = true := by
  rw [generateUserList]
  repeat' split
  all_goals try rw [finishPublish]
  all_goals repeat' split
  all_goals simp_all [cleanupTmp]

/-! ### Claim theorems -/

/-- C1, counterexample: the claim says a run on which the rename fails
creates no reload marker.  In the code `writeTriggerFile()` runs before
`os.Rename`: with every operation succeeding except the final rename,
the run fails with the rename error, yet the trigger file has been
created (`markReload` occurred, `publish` did not). -/
theorem trigger_created_despite_rename_failure :
    (generateUserList oRenameFail rowsAB "userlist.txt" 7 emptyFs).res
      = Except.error GoErr.renameErr ∧
    (generateUserList oRenameFail rowsAB "userlist.txt" 7 emptyFs).fs.marker
      = true ∧
    Event.markReload
      ∈ (generateUserList oRenameFail rowsAB "userlist.txt" 7 emptyFs).events ∧
    Event.publish
      ∉ (generateUserList oRenameFail rowsAB "userlist.txt" 7 emptyFs).events := by
  decide

/-- C1, amended: in every run the side-effect order is backup, then
marking reload owed, then publish — the event trace is always a sublist
of `[writeTmp, fingerprintTmp, fingerprintLive, backup, markReload,
publish]` — every publish is preceded by the trigger-file write, and a
run that fails at the rename has already created the reload marker. -/
theorem trigger_write_precedes_rename (o : FsOutcomes) (rows : List Row)
    (path : String) (now : Nat) (s : FsState) :
    (generateUserList o rows path now s).events.Sublist
      [Event.writeTmp, Event.fingerprintTmp, Event.fingerprintLive,
       Event.backup, Event.markReload, Event.publish] ∧
    (Event.publish ∈ (generateUserList o rows path now s).events →
      Event.markReload ∈ (generateUserList o rows path now s).events) ∧
    ((generateUserList o rows path now s).res = Except.error GoErr.renameErr →
      (generateUserList o rows path now s).fs.marker = true) := by
  rw [generateUserList]
  repeat' split
  all_goals try rw [finishPublish]
  all_goals repeat' split
  all_goals exact ⟨by dsimp only; decide, by dsimp only; decide,
    by simp [cleanupTmp]⟩

theorem trigger_write_precedes_rename_witness :
    (generateUserList oRenameFail rowsAB "userlist.txt" 3 emptyFs).fs.marker
      = true :=
  (trigger_write_precedes_rename oRenameFail rowsAB "userlist.txt" 3
    emptyFs).2.2 (by decide)

/-- C2: code bug — the query's `where` clause compares only the group
name `r.rolname` against the exclusion list, never the principal's own
name `id.rolname`.  With principals `A` (no group), `B` (member of
excluded group `G`) and `C` (itself named in the exclusion list, no
group) and exclusion list `[G, C]`, the fetched set is `[A, C]`, not the
claimed `[A]`: `C` survives, and the rendered output contains its line. -/
theorem exclusion_ignores_direct_name :
    queryUserList rolesC2 membersC2 ["G", "C"] = [("A", "pwA"), ("C", "pwC")] ∧
    ("C", "pwC") ∈ queryUserList rolesC2 membersC2 ["G", "C"] ∧
    queryUserList rolesC2 membersC2 ["G", "C"] ≠ [("A", "pwA")] ∧
    render (queryUserList rolesC2 membersC2 ["G", "C"])
      = "\"A\" \"pwA\"\n\"C\" \"pwC\"\n" := by
  decide

/-- C3: on a changed run with an existing live artifact, the live
content is first copied to `path ++ ".backup-" ++ now` (the backup event
strictly precedes any publish event); if the copy fails, the run aborts
with the backup error, the live artifact, backups and marker are exactly
as before, and no publish happens. -/
theorem backup_precedes_publish (o : FsOutcomes) (rows : List Row)
    (path : String) (now : Nat) (s : FsState) (lc : String)
    (hlive : s.live = some lc) (hch : render rows ≠ lc)
    (htx : o.txOk = true) (hq : o.queryOk = true) (hsc : o.scanOk = true)
    (hw : o.writeTmpOk = true) (hm1 : o.md5TmpOk = true)
    (hm2 : o.md5LiveOk = true) :
    (o.backupOk = true →
      (generateUserList o rows path now s).fs.backups
        = (path ++ ".backup-" ++ toString now, lc) :: s.backups ∧
      ((generateUserList o rows path now s).events
          = [Event.writeTmp, Event.fingerprintTmp, Event.fingerprintLive,
             Event.backup] ∨
        (generateUserList o rows path now s).events
          = [Event.writeTmp, Event.fingerprintTmp, Event.fingerprintLive,
             Event.backup, Event.markReload] ∨
        (generateUserList o rows path now s).events
          = [Event.writeTmp, Event.fingerprintTmp, Event.fingerprintLive,
             Event.backup, Event.markReload, Event.publish])) ∧
    (o.backupOk = false →
      (generateUserList o rows path now s).res = Except.error GoErr.backupErr ∧
      (generateUserList o rows path now s).fs.live = s.live ∧
      (generateUserList o rows path now s).fs.backups = s.backups ∧
      (generateUserList o rows path now s).fs.marker = s.marker ∧
      Event.publish ∉ (generateUserList o rows path now s).events) := by
  rw [generateUserList]
  simp only [htx, hq, hsc, hw, hm1, hm2, hlive, md5Model, Bool.not_true]
  rw [if_neg (by simp), if_neg (by simp), if_neg (by simp), if_neg (by simp)]
  rw [if_neg (by simp), if_neg (by simp), if_neg hch]
  constructor
  · intro hb
    rw [if_neg (by simp [hb]), finishPublish]
    cases htg : o.triggerOk <;> cases hrn : o.renameOk <;>
      simp [cleanupTmp]
  · intro hb
    rw [if_pos (by simp [hb])]
    simp

theorem backup_precedes_publish_witness :
    (generateUserList allOk rowsAB "p" 5 fsLiveOld).fs.backups
      = ("p" ++ ".backup-" ++ toString 5, "old\n") :: fsLiveOld.backups :=
  ((backup_precedes_publish allOk rowsAB "p" 5 fsLiveOld "old\n" rfl
    (by decide) rfl rfl rfl rfl rfl rfl).1 rfl).1

/-- C4: when the rendered content equals the live content (equal
fingerprints), the run returns success and has no further side effects:
live artifact, backups and marker are untouched, the temporary file is
gone, and the trace shows only the temporary write and the two
fingerprint computations — no backup, no publish, no reload marking. -/
theorem unchanged_run_is_noop (o : FsOutcomes) (rows : List Row)
    (path : String) (now : Nat) (s : FsState) (lc : String)
    (hlive : s.live = some lc) (heq : render rows = lc)
    (htx : o.txOk = true) (hq : o.queryOk = true) (hsc : o.scanOk = true)
    (hw : o.writeTmpOk = true) (hm1 : o.md5TmpOk = true)
    (hm2 : o.md5LiveOk = true) :
    (generateUserList o rows path now s).res = Except.ok () ∧
    (generateUserList o rows path now s).fs.live = s.live ∧
    (generateUserList o rows path now s).fs.backups = s.backups ∧
    (generateUserList o rows path now s).fs.marker = s.marker ∧
    (generateUserList o rows path now s).fs.tmp = none ∧
    (generateUserList o rows path now s).events
      = [Event.writeTmp, Event.fingerprintTmp, Event.fingerprintLive] := by
  rw [generateUserList]
  simp only [htx, hq, hsc, hw, hm1, hm2, hlive, md5Model, Bool.not_true]
  rw [if_neg (by simp), if_neg (by simp), if_neg (by simp), if_neg (by simp)]
  rw [if_neg (by simp), if_neg (by simp), if_pos heq]
  simp

theorem unchanged_run_is_noop_witness :
    (generateUserList allOk rowsAB "p" 2 r1fs).res = Except.ok () ∧
    (generateUserList allOk rowsAB "p" 2 r1fs).fs.backups = r1fs.backups :=
  ⟨(unchanged_run_is_noop allOk rowsAB "p" 2 r1fs (render rowsAB) (by decide)
      rfl rfl rfl rfl rfl rfl rfl).1,
   (unchanged_run_is_noop allOk rowsAB "p" 2 r1fs (render rowsAB) (by decide)
      rfl rfl rfl rfl rfl rfl rfl).2.2.1⟩

/-- C5: the rendered artifact is the newline-join of a sorted
permutation of the per-record lines `"principal" "secret"` followed by a
single final newline; the line list is sorted lexicographically by full
rendered text; an empty credential set renders to exactly one newline;
and the spec's §8 example renders byte-for-byte as stated. -/
theorem render_artifact_shape :
    (∀ rows : List Row,
      (sortedLines rows).Perm (rows.map fun r => renderLine r.1 r.2) ∧
      List.Sorted strLeProp (sortedLines rows) ∧
      render rows = String.intercalate "\n" (sortedLines rows) ++ "\n") ∧
    render [] = "\n" ∧
    render rowsAB = "\"alice\" \"pw1\"\n\"bob\" \"pw2\"\n" :=
  ⟨fun _ => ⟨List.perm_insertionSort _ _, List.sorted_insertionSort _ _, rfl⟩,
   by decide, by decide⟩

/-- C6: once the temporary file has been written, every exit path —
fingerprint failure on either file, backup failure, trigger-write
failure, rename failure, the unchanged no-op and the success path —
leaves no temporary file behind. -/
theorem tmp_file_always_removed (o : FsOutcomes) (rows : List Row)
    (path : String) (now : Nat) (s : FsState)
    (htx : o.txOk = true) (hq : o.queryOk = true) (hsc : o.scanOk = true)
    (hw : o.writeTmpOk = true) :
    (generateUserList o rows path now s).fs.tmp = none := by
  rw [generateUserList]
  simp only [htx, hq, hsc, hw, Bool.not_true]
  rw [if_neg (by simp), if_neg (by simp), if_neg (by simp), if_neg (by simp)]
  repeat' split
  all_goals try rw [finishPublish]
  all_goals repeat' split
  all_goals simp_all [cleanupTmp]

theorem tmp_file_always_removed_witness :
    (generateUserList oMd5Fail rowsAB "p" 0 fsLiveOld).fs.tmp = none :=
  tmp_file_always_removed oMd5Fail rowsAB "p" 0 fsLiveOld rfl rfl rfl rfl

/-- C7: when no live artifact exists, the run skips the fingerprint
block entirely — whatever the fingerprinting outcomes would have been —
performs no backup, and publishes the rendered content onto the live
path, returning success. -/
theorem first_run_publishes_without_fingerprinting (o : FsOutcomes)
    (rows : List Row) (path : String) (now : Nat) (s : FsState)
    (hlive : s.live = none)
    (htx : o.txOk = true) (hq : o.queryOk = true) (hsc : o.scanOk = true)
    (hw : o.writeTmpOk = true) (htg : o.triggerOk = true)
    (hrn : o.renameOk = true) :
    (generateUserList o rows path now s).res = Except.ok () ∧
    (generateUserList o rows path now s).fs.live = some (render rows) ∧
    (generateUserList o rows path now s).fs.backups = s.backups ∧
    (generateUserList o rows path now s).events
      = [Event.writeTmp, Event.markReload, Event.publish] ∧
    Event.fingerprintTmp ∉ (generateUserList o rows path now s).events ∧
    Event.fingerprintLive ∉ (generateUserList o rows path now s).events ∧
    Event.backup ∉ (generateUserList o rows path now s).events := by
  rw [generateUserList]
  simp only [htx, hq, hsc, hw, hlive, Bool.not_true]
  rw [if_neg (by simp), if_neg (by simp), if_neg (by simp), if_neg (by simp)]
  rw [finishPublish, if_pos htg, if_pos hrn]
  simp

theorem first_run_publishes_without_fingerprinting_witness :
    (generateUserList oNoMd5 rowsAB "p" 0 emptyFs).res = Except.ok () ∧
    (generateUserList oNoMd5 rowsAB "p" 0 emptyFs).fs.live
      = some (render rowsAB) :=
  ⟨(first_run_publishes_without_fingerprinting oNoMd5 rowsAB "p" 0 emptyFs
      rfl rfl rfl rfl rfl rfl rfl).1,
   (first_run_publishes_without_fingerprinting oNoMd5 rowsAB "p" 0 emptyFs
      rfl rfl rfl rfl rfl rfl rfl).2.1⟩

/-- C8: rendering is insensitive to input order — permuting the
credential set yields a byte-identical artifact. -/
theorem render_input_order_insensitive (rows₁ rows₂ : List Row)
    (h : rows₁.Perm rows₂) : render rows₁ = render rows₂ := by
  unfold render
  rw [sortedLines_eq_of_perm h]

theorem render_input_order_insensitive_witness :
    rowsAB.Perm [("bob", "pw2"), ("alice", "pw1")] ∧
    render rowsAB = render [("bob", "pw2"), ("alice", "pw1")] :=
  ⟨by decide, render_input_order_insensitive _ _ (by decide)⟩

/-- C9: rendering performs no escaping — each line is the verbatim byte
concatenation quote, principal, quote-space-quote, secret, quote — so a
secret containing a newline yields an artifact whose newline-split has
three fields instead of the two (line, empty tail) of a well-formed
single-credential artifact. -/
theorem render_line_no_escaping :
    (∀ u p : String, renderLine u p = "\"" ++ u ++ "\" \"" ++ p ++ "\"") ∧
    render [("a", "x\ny")] = "\"a\" \"x\ny\"\n" ∧
    ((render [("a", "x\ny")]).data.splitOn '\n').length = 3 :=
  ⟨fun _ _ => rfl, by decide, by decide⟩

/-- C10: nothing in the program deletes the reload marker: a run that
starts with the marker present ends with it present, and whenever
`generateUserList` succeeds — including the unchanged no-op — `main`
finds the marker and invokes the reload command again. -/
theorem marker_never_deleted_and_retriggers (o : FsOutcomes)
    (reloadOk : Bool) (rows : List Row) (path : String) (now : Nat)
    (s : FsState) (hm : s.marker = true) :
    (mainRun o reloadOk rows path now s).fs.marker = true ∧
    ((mainRun o reloadOk rows path now s).genResult = Except.ok () →
      (mainRun o reloadOk rows path now s).reloadInvoked = true) := by
  have h := marker_mono o rows path now s hm
  unfold mainRun
  cases hr : (generateUserList o rows path now s).res with
  | error e => simp [hr, h]
  | ok u => simp [hr, h]

theorem marker_never_deleted_and_retriggers_witness :
    (mainRun allOk true rowsAB "p" 0 fsMarked).fs.marker = true ∧
    (mainRun allOk true rowsAB "p" 0 fsMarked).reloadInvoked = true :=
  ⟨(marker_never_deleted_and_retriggers allOk true rowsAB "p" 0 fsMarked
      rfl).1,
   (marker_never_deleted_and_retriggers allOk true rowsAB "p" 0 fsMarked
      rfl).2 (by decide)⟩

end PgbUserlist
